import Mathlib

/-!
A shallow embedding of the `Framecast` class from `src/index.ts` (the
`framecast` package): a postMessage-based broadcast / remote-call protocol
between two window contexts.

Modelling conventions:
* JS values carried on the wire are modelled by the inductive `Value`
  (`vNull` doubles as `undefined`).
* Callback functions (listeners) are identified by natural numbers; their
  behaviour is supplied by an `Env` mapping a listener id and its arguments
  to either a normal return (`Except.ok`) or a thrown value (`Except.error`).
* The mutable instance state (`listeners`, `pendingFunctionCalls`) is the
  structure `State`; JS `Map` / the listener record are association lists,
  and JS `Set` is an insertion-ordered duplicate-free list.
* Side effects (invoking a listener, posting a message, settling a promise,
  clearing a timer) are reified in the `Effect` list each operation emits.
* `Date.now()` and `window.setTimeout`'s handle are passed in as explicit
  parameters (`now`, `timerHandle`).
* JS `String.prototype.startsWith` is embedded as a character-list prefix
  test (`jsStartsWith`), which has the same meaning.
-/

/-- JS values carried in messages. `vNull` stands for `null`/`undefined`. -/
inductive Value where
  | vNull
  | vBool (b : Bool)
  | vNum (n : Int)
  | vStr (s : String)
  | vErr (msg : String)
  deriving Repr, DecidableEq

/-- JS truthiness of a `Value` (an `Error` object is always truthy). -/
def Value.truthy : Value → Bool
  | .vNull => false
  | .vBool b => b
  | .vNum n => n != 0
  | .vStr s => s != ""
  | .vErr _ => true

/-- JS `s.startsWith(pre)`: `pre` is a prefix of `s` (character-wise). -/
def jsStartsWith (s pre : String) : Bool :=
  pre.data.isPrefixOf s.data

/-- The `FramecastConfig` record (`origin`, `channel`, `functionTimeoutMs`,
`supportEvaluate`); `self`/`target` window references are external and not
modelled. `none` stands for JS `null`/`undefined`. -/
structure Config where
  origin : Option String
  channel : Option String
  functionTimeoutMs : Option Int
  supportEvaluate : Bool
  deriving Repr, DecidableEq

/-- The defaults in the `config` field initializer of the class. -/
def defaultConfig : Config :=
  { origin := none, channel := none, functionTimeoutMs := some 10000,
    supportEvaluate := false }

/-- The `origin` getter: `this.config.origin ?? '*'`. -/
def originOf (cfg : Config) : String :=
  cfg.origin.getD "*"

/-- The `channel` getter:
`` `__framecast${this.config.channel ? `_${this.config.channel}` : ''}` ``
(a `null` or empty channel id is falsy). -/
def channelKey (cfg : Config) : String :=
  "__framecast" ++
    (if cfg.channel.getD "" != "" then "_" ++ cfg.channel.getD "" else "")

/-- A decoded wire message: `superjson.stringify({...message, type, channel})`.
Fields a given message kind does not carry keep their defaults
(JS `undefined`). -/
structure WireMessage where
  type : String
  channel : String
  id : Int
  data : Value
  args : List Value
  result : Option Value
  error : Option Value
  deriving Repr, DecidableEq

/-- `postMessage('broadcast', { data })`. -/
def broadcastMsg (cfg : Config) (d : Value) : WireMessage :=
  { type := "broadcast", channel := channelKey cfg, id := 0, data := d,
    args := [], result := none, error := none }

/-- ``postMessage(`function:${functionName}`, { id, args })``. -/
def functionCallMsg (cfg : Config) (functionName : String) (id : Int)
    (args : List Value) : WireMessage :=
  { type := "function:" ++ functionName, channel := channelKey cfg, id := id,
    data := Value.vNull, args := args, result := none, error := none }

/-- `postMessage('functionResult', { id, result })` or
`postMessage('functionResult', { id, error })`. -/
def resultMsg (cfg : Config) (id : Int) (result error : Option Value) :
    WireMessage :=
  { type := "functionResult", channel := channelKey cfg, id := id,
    data := Value.vNull, args := [], result := result, error := error }

/-- An entry of `pendingFunctionCalls`: the stored `timeout` handle.  The
`resolve`/`reject` closures settle the promise of the call with this
correlation id; settlement is reified as `Effect.resolve`/`Effect.reject`. -/
structure PendingCall where
  timeout : Nat
  deriving Repr, DecidableEq

/-- Association-list lookup (JS `Map.get` / property read). -/
def alGet {α β : Type} [DecidableEq α] : List (α × β) → α → Option β
  | [], _ => none
  | (k, v) :: rest, k' => if k = k' then some v else alGet rest k'

/-- Association-list update (JS `Map.set` / property write): replaces the
existing binding, else appends. -/
def alSet {α β : Type} [DecidableEq α] : List (α × β) → α → β → List (α × β)
  | [], k, v => [(k, v)]
  | (k', v') :: rest, k, v =>
    if k' = k then (k, v) :: rest else (k', v') :: alSet rest k v

/-- Association-list removal (JS `Map.delete`). -/
def alErase {α β : Type} [DecidableEq α] (m : List (α × β)) (k : α) :
    List (α × β) :=
  m.filter (fun p => p.1 != k)

/-- JS `Set.add`: no-op when present, else append (insertion order kept). -/
def setAdd (l : List Nat) (x : Nat) : List Nat :=
  if l.contains x then l else l ++ [x]

/-- The mutable per-instance state: `listeners` (event key to set of
listener ids) and `pendingFunctionCalls` (correlation id to pending entry). -/
structure State where
  listeners : List (String × List Nat)
  pendingFunctionCalls : List (Int × PendingCall)
  deriving Repr, DecidableEq

/-- The freshly constructed state: `listeners = { broadcast: new Set() }`,
`pendingFunctionCalls = new Map()`. -/
def initialState : State :=
  { listeners := [("broadcast", [])], pendingFunctionCalls := [] }

/-- `this.listeners[eventType] ?? []` viewed as a list of listener ids
(an absent key reads as the empty set). -/
def lookupListeners (s : State) (eventType : String) : List Nat :=
  (alGet s.listeners eventType).getD []

/-- Side effects emitted by the endpoint's operations. -/
inductive Effect where
  | invoked (listener : Nat) (data : Value)
  | fnInvoked (listener : Nat) (args : List Value)
  | post (msg : WireMessage)
  | resolve (id : Int) (v : Value)
  | reject (id : Int) (e : Value)
  | clearTimer (handle : Nat)
  deriving Repr, DecidableEq

/-- Behaviour of the listener callbacks: a broadcast listener either returns
(`ok`) or throws a value; a function listener returns a result or throws. -/
structure Env where
  broadcastFn : Nat → Value → Except Value Unit
  functionFn : Nat → List Value → Except Value Value

/-- `Framecast.on(eventType, listener)`.  Creates the backing set if absent;
throws `Listener already exists for ...` when registering a second listener
under a `function:` key; otherwise adds the listener to the set. -/
def «on» (s : State) (eventType : String) (listener : Nat) :
    Except String State :=
  let cur := lookupListeners s eventType
  if jsStartsWith eventType "function:" && cur.length != 0 then
    .error ("Listener already exists for " ++ eventType)
  else
    .ok { s with listeners := alSet s.listeners eventType (setAdd cur listener) }

/-- `Framecast.off(eventType, listener)`: removes the listener from the set
if the key exists; no-op otherwise. -/
def off (s : State) (eventType : String) (listener : Nat) : State :=
  match alGet s.listeners eventType with
  | none => s
  | some cur =>
    { s with listeners :=
        alSet s.listeners eventType (cur.filter (fun x => x != listener)) }

/-- `!this.config.functionTimeoutMs`: JS falsiness of the configured
timeout (`null`/`undefined` or `0`). -/
def falsyTimeout : Option Int → Bool
  | none => true
  | some n => n == 0

/-- `Framecast.call(functionName, ...args)` up to the point the promise is
created: generates `id = Date.now()`, throws if `functionTimeoutMs` is falsy,
else stores the pending entry (with the fresh timer handle) and posts the
`function:<name>` envelope.  `now` is the value of `Date.now()` and
`timerHandle` the handle returned by `window.setTimeout`. -/
def call (cfg : Config) (s : State) (now : Int) (functionName : String)
    (args : List Value) (timerHandle : Nat) :
    Except String (State × WireMessage) :=
  let id := now
  if falsyTimeout cfg.functionTimeoutMs then
    .error "Framecast.call() requires a config.functionTimeoutMs to be set"
  else
    .ok ({ s with pendingFunctionCalls :=
             alSet s.pendingFunctionCalls id { timeout := timerHandle } },
         functionCallMsg cfg functionName id args)

/-- `Framecast.clearPendingFunctionCall(id)`: if an entry exists, delete it
and `clearTimeout` its timer; no-op otherwise. -/
def clearPendingFunctionCall (s : State) (id : Int) : State × List Effect :=
  match alGet s.pendingFunctionCalls id with
  | some pc =>
    ({ s with pendingFunctionCalls := alErase s.pendingFunctionCalls id },
     [Effect.clearTimer pc.timeout])
  | none => (s, [])

/-- The `setTimeout` callback inside `call`: clears the pending entry and
rejects with ```${functionName} timed out after ${functionTimeoutMs}ms` ``. -/
def fireTimeout (cfg : Config) (s : State) (id : Int) (functionName : String) :
    State × List Effect :=
  let cleared := clearPendingFunctionCall s id
  (cleared.1, cleared.2 ++
    [Effect.reject id (Value.vErr (functionName ++ " timed out after " ++
      (match cfg.functionTimeoutMs with
       | some n => toString n
       | none => "undefined") ++ "ms"))])

/-- `Framecast.handleBroadcast(data)`: iterate the broadcast listeners in
insertion order, invoking each with `data`.  There is no per-listener
`try`/`catch`: a throw aborts the loop, skipping the remaining listeners. -/
def handleBroadcast (env : Env) (ls : List Nat) (d : Value) : List Effect :=
  match ls with
  | [] => []
  | l :: rest =>
    match env.broadcastFn l d with
    | .ok _ => Effect.invoked l d :: handleBroadcast env rest d
    | .error _ => [Effect.invoked l d]

/-- The `for (const listener of this.listeners[eventType])` loop in
`handleFunctionCall`: awaits each listener on `args`, keeping the last
result; a throw escapes to the surrounding `catch`. -/
def runFnListeners (env : Env) (ls : List Nat) (args : List Value)
    (cur : Option Value) : Except Value (Option Value) × List Effect :=
  match ls with
  | [] => (.ok cur, [])
  | l :: rest =>
    match env.functionFn l args with
    | .error e => (.error e, [Effect.fnInvoked l args])
    | .ok r =>
      let next := runFnListeners env rest args (some r)
      (next.1, Effect.fnInvoked l args :: next.2)

/-- `Framecast.handleFunctionCall(eventType, id, args)`: with no listener,
replies with a `No listeners for <eventType>` error; otherwise invokes the
listener(s) and replies with `{id, result}`, or `{id, error}` on a throw. -/
def handleFunctionCall (env : Env) (cfg : Config) (s : State)
    (eventType : String) (id : Int) (args : List Value) : List Effect :=
  let ls := lookupListeners s eventType
  if ls.length == 0 then
    [Effect.post (resultMsg cfg id none
      (some (Value.vErr ("No listeners for " ++ eventType))))]
  else
    match runFnListeners env ls args none with
    | (.ok r, effs) =>
      effs ++ [Effect.post (resultMsg cfg id (some (r.getD Value.vNull)) none)]
    | (.error e, effs) =>
      effs ++ [Effect.post (resultMsg cfg id none (some e))]

/-- `Framecast.handleFunctionResult(data)`: look the id up in
`pendingFunctionCalls`; if found, clear the entry and settle (reject when
`data.error` is truthy, else resolve with `data.result`); else do nothing. -/
def handleFunctionResult (s : State) (id : Int)
    (result error : Option Value) : State × List Effect :=
  match alGet s.pendingFunctionCalls id with
  | some _ =>
    let cleared := clearPendingFunctionCall s id
    if (match error with | some e => e.truthy | none => false) then
      (cleared.1, cleared.2 ++ [Effect.reject id (error.getD Value.vNull)])
    else
      (cleared.1, cleared.2 ++ [Effect.resolve id (result.getD Value.vNull)])
  | none => (s, [])

/-- An inbound `message` event: the sender origin and the decoded payload
(`none` when `superjson.parse` throws, i.e. a malformed message). -/
structure Event where
  origin : String
  payload : Option WireMessage

/-- `Framecast.handlePostedMessage(event)`: decode; drop on decode failure,
origin mismatch (when a non-wildcard origin is configured) or channel
mismatch; otherwise dispatch on `type`, ignoring unknown kinds. -/
def handlePostedMessage (env : Env) (cfg : Config) (s : State) (ev : Event) :
    State × List Effect :=
  match ev.payload with
  | none => (s, [])
  | some m =>
    if originOf cfg != "*" && ev.origin != originOf cfg then (s, [])
    else if channelKey cfg != m.channel then (s, [])
    else if m.type == "broadcast" then
      (s, handleBroadcast env (lookupListeners s "broadcast") m.data)
    else if m.type == "functionResult" then
      handleFunctionResult s m.id m.result m.error
    else if jsStartsWith m.type "function:" then
      (s, handleFunctionCall env cfg s m.type m.id m.args)
    else (s, [])

/-! ### Concrete fixtures used by the witness theorems -/

/-- A listener environment where every callback returns normally; function
listeners return the number of arguments they received. -/
def testEnv : Env :=
  { broadcastFn := fun _ _ => .ok (),
    functionFn := fun _ args => .ok (Value.vNum args.length) }

/-- A listener environment where listener `1` throws. -/
def throwingEnv : Env :=
  { broadcastFn := fun l _ =>
      if l == 1 then .error (Value.vErr "boom") else .ok (),
    functionFn := fun _ _ => .error (Value.vErr "fail") }

/-- A receiver state with listener `7` registered under `function:f`. -/
def stateWithF : State :=
  { listeners := [("broadcast", []), ("function:f", [7])],
    pendingFunctionCalls := [] }

/-- A config whose timeout is zero (JS-falsy). -/
def zeroTimeoutConfig : Config :=
  { defaultConfig with functionTimeoutMs := some 0 }

/-- A config whose timeout is negative (JS-truthy, so the guard passes). -/
def negTimeoutConfig : Config :=
  { defaultConfig with functionTimeoutMs := some (-5) }

/-- A config with a channel id. -/
def channelConfig : Config :=
  { defaultConfig with channel := some "c1" }

/-- A config with a concrete (non-wildcard) origin filter. -/
def originConfig : Config :=
  { defaultConfig with origin := some "https://a.example" }

/-- A caller state with one pending call (id 5, timer handle 3). -/
def statePending : State :=
  { listeners := [("broadcast", [])],
    pendingFunctionCalls := [(5, { timeout := 3 })] }

/-! ### Association-list and string helper lemmas -/

theorem alGet_alSet_self {α β : Type} [DecidableEq α]
    (m : List (α × β)) (k : α) (v : β) : alGet (alSet m k v) k = some v := by
  induction m with
  | nil => simp [alSet, alGet]
  | cons p rest ih =>
    obtain ⟨a, b⟩ := p
    by_cases h : a = k
    · simp [alSet, alGet, h]
    · simp [alSet, alGet, h, ih]

theorem alGet_alErase_self {α β : Type} [DecidableEq α]
    (m : List (α × β)) (k : α) : alGet (alErase m k) k = none := by
  induction m with
  | nil => rfl
  | cons p rest ih =>
    obtain ⟨a, b⟩ := p
    by_cases h : a = k
    · simpa [alErase, List.filter_cons, h] using ih
    · simpa [alErase, List.filter_cons, h, alGet] using ih

theorem alSet_alSet_self {α β : Type} [DecidableEq α]
    (m : List (α × β)) (k : α) (v w : β) :
    alSet (alSet m k v) k w = alSet m k w := by
  induction m with
  | nil => simp [alSet]
  | cons p rest ih =>
    obtain ⟨a, b⟩ := p
    by_cases h : a = k
    · simp [alSet, h]
    · simp [alSet, h, ih]

theorem alGet_of_lookupListeners_singleton (s : State) (key : String) (l : Nat)
    (h : lookupListeners s key = [l]) : alGet s.listeners key = some [l] := by
  unfold lookupListeners at h
  cases hg : alGet s.listeners key with
  | none => rw [hg] at h; simp at h
  | some v => rw [hg] at h; simp at h; rw [h]

theorem jsStartsWith_append (p s : String) : jsStartsWith (p ++ s) p = true := by
  have h : p.data <+: (p ++ s).data := by
    rw [String.data_append]; exact List.prefix_append _ _
  unfold jsStartsWith
  exact (List.isPrefixOf_iff_prefix).mpr h

theorem fnKey_ne_of_not_prefix (name t : String)
    (h : ("function:".data.isPrefixOf t.data) = false) :
    ("function:" ++ name) ≠ t := by
  intro he
  have hd : ("function:" ++ name).data = t.data := by rw [he]
  rw [String.data_append] at hd
  have hp : "function:".data <+: t.data := ⟨name.data, hd⟩
  rw [← List.isPrefixOf_iff_prefix] at hp
  rw [h] at hp
  exact Bool.noConfusion hp

theorem fnKey_ne_broadcast (name : String) :
    ("function:" ++ name) ≠ "broadcast" :=
  fnKey_ne_of_not_prefix name "broadcast" (by decide)

theorem fnKey_ne_functionResult (name : String) :
    ("function:" ++ name) ≠ "functionResult" :=
  fnKey_ne_of_not_prefix name "functionResult" (by decide)

/-! ### Claim theorems -/

/-- C5 (counterexample): the claim says the channel key is `"__channel"`
(plus `"_" + channelId` when set), but the code derives it from the prefix
`"__framecast"`: with no channel id the key is not `"__channel"`, and with
channel id `"c1"` it is not `"__channel_c1"`. -/
theorem C5_counterexample :
    channelKey defaultConfig ≠ "__channel" ∧
    channelKey channelConfig ≠ "__channel_c1" := by
  constructor <;> decide

/-- C5 (amended): the channel key is the derived string `"__framecast"`
plus `"_"` plus the configured channel id when a (non-empty) channel id is
set, and just `"__framecast"` otherwise; an inbound envelope whose channel
field differs from this derived key is never dispatched (no listener runs,
no reply is sent, the state is unchanged). -/
theorem C5_channel_key (cfg : Config) (cid : String) (env : Env) (s : State) :
    (cfg.channel = some cid → cid ≠ "" →
      channelKey cfg = "__framecast_" ++ cid) ∧
    (cfg.channel = none → channelKey cfg = "__framecast") ∧
    (∀ o m, m.channel ≠ channelKey cfg →
      handlePostedMessage env cfg s { origin := o, payload := some m }
        = (s, [])) := by
  refine ⟨?_, ?_, ?_⟩
  · intro hc hne
    have h1 : channelKey cfg = "__framecast" ++ ("_" ++ cid) := by
      simp [channelKey, hc, hne]
    have h2 : ("__framecast" ++ "_" : String) = "__framecast_" := by decide
    rw [h1, ← String.append_assoc, h2]
  · intro hc
    simp [channelKey, hc]
  · intro o m hm
    unfold handlePostedMessage
    by_cases ho : (originOf cfg != "*" && o != originOf cfg) = true
    · simp [ho]
    · have hch : (channelKey cfg != m.channel) = true := by
        simpa using (Ne.symm hm)
      simp [ho, hch]

/-- C5 witness: concrete instances of the amended statement. -/
theorem C5_channel_key_witness :
    channelConfig.channel = some "c1" ∧
    channelKey channelConfig = "__framecast_c1" ∧
    defaultConfig.channel = none ∧
    channelKey defaultConfig = "__framecast" ∧
    handlePostedMessage testEnv defaultConfig initialState
      { origin := "o", payload := some (broadcastMsg channelConfig (Value.vNum 1)) }
      = (initialState, []) := by
  refine ⟨by decide, ?_, by decide, ?_, ?_⟩
  · exact (C5_channel_key channelConfig "c1" testEnv initialState).1 rfl (by decide)
  · exact (C5_channel_key defaultConfig "c1" testEnv initialState).2.1 rfl
  · exact (C5_channel_key defaultConfig "c1" testEnv initialState).2.2 "o"
      (broadcastMsg channelConfig (Value.vNum 1)) (by decide)

/-- C6: registering a second listener under an already-occupied
`function:<name>` key throws `Listener already exists for ...`; after
removing the first listener with `off`, registering a second succeeds and
it becomes the sole listener; `broadcast` registration never throws. -/
theorem C6_single_function_listener (s : State) (name : String) (l₁ l₂ : Nat)
    (h : lookupListeners s ("function:" ++ name) = [l₁]) :
    «on» s ("function:" ++ name) l₂ =
      .error ("Listener already exists for " ++ ("function:" ++ name)) ∧
    («on» (off s ("function:" ++ name) l₁) ("function:" ++ name) l₂).map
        (fun t => lookupListeners t ("function:" ++ name)) = .ok [l₂] ∧
    (∀ (t : State) (b : Nat), («on» t "broadcast" b).isOk = true) := by
  have hsw := jsStartsWith_append "function:" name
  have hget := alGet_of_lookupListeners_singleton s _ l₁ h
  refine ⟨?_, ?_, ?_⟩
  · simp [«on», h, hsw]
  · have hoff : off s ("function:" ++ name) l₁ =
        { s with listeners :=
            alSet s.listeners ("function:" ++ name) [] } := by
      unfold off
      rw [hget]
      simp
    rw [hoff]
    have hlk : lookupListeners
        { s with listeners := alSet s.listeners ("function:" ++ name) [] }
        ("function:" ++ name) = [] := by
      simp [lookupListeners, alGet_alSet_self]
    simp [«on», hlk, hsw, setAdd, Except.map, lookupListeners,
      alSet_alSet_self, alGet_alSet_self]
  · intro t b
    have hb : jsStartsWith "broadcast" "function:" = false := by decide
    simp [«on», hb, Except.isOk, Except.toBool]

/-- C6 witness: with listener 7 under `function:f`, registering 8 throws;
after `off`, it succeeds; broadcast registration succeeds. -/
theorem C6_witness :
    lookupListeners stateWithF ("function:" ++ "f") = [7] ∧
    («on» stateWithF ("function:" ++ "f") 8 =
      .error ("Listener already exists for " ++ ("function:" ++ "f")) ∧
    («on» (off stateWithF ("function:" ++ "f") 7) ("function:" ++ "f") 8).map
        (fun t => lookupListeners t ("function:" ++ "f")) = .ok [8] ∧
    (∀ (t : State) (b : Nat), («on» t "broadcast" b).isOk = true)) :=
  ⟨by decide, C6_single_function_listener stateWithF "f" 7 8 (by decide)⟩

/-- C9: `call` throws the `functionTimeoutMs` configuration error exactly
when the configured timeout is JS-falsy, i.e. absent (`null`/`undefined`)
or `0`; any other value — including a negative number — passes the guard,
and the call stores a pending entry and sends the `function:<name>`
envelope. -/
theorem C9_timeout_guard (cfg : Config) (s : State) (now : Int)
    (name : String) (args : List Value) (th : Nat) :
    (falsyTimeout cfg.functionTimeoutMs = true ↔
      (cfg.functionTimeoutMs = none ∨ cfg.functionTimeoutMs = some 0)) ∧
    (falsyTimeout cfg.functionTimeoutMs = true →
      call cfg s now name args th =
        .error "Framecast.call() requires a config.functionTimeoutMs to be set") ∧
    (falsyTimeout cfg.functionTimeoutMs = false →
      call cfg s now name args th =
        .ok ({ s with pendingFunctionCalls :=
                 alSet s.pendingFunctionCalls now { timeout := th } },
             functionCallMsg cfg name now args)) := by
  refine ⟨?_, ?_, ?_⟩
  · cases hf : cfg.functionTimeoutMs with
    | none => simp [falsyTimeout]
    | some n => simp [falsyTimeout]
  · intro hf
    simp [call, hf]
  · intro hf
    simp [call, hf]

/-- C9 witness: timeout `0` throws the configuration error; timeout `-5`
passes the guard, registers the pending entry and posts the envelope. -/
theorem C9_witness :
    falsyTimeout zeroTimeoutConfig.functionTimeoutMs = true ∧
    call zeroTimeoutConfig initialState 3 "f" [] 1 =
      .error "Framecast.call() requires a config.functionTimeoutMs to be set" ∧
    falsyTimeout negTimeoutConfig.functionTimeoutMs = false ∧
    call negTimeoutConfig initialState 3 "f" [] 1 =
      .ok ({ initialState with
             pendingFunctionCalls :=
               alSet initialState.pendingFunctionCalls 3 { timeout := 1 } },
           functionCallMsg negTimeoutConfig "f" 3 []) :=
  ⟨by decide,
   (C9_timeout_guard zeroTimeoutConfig initialState 3 "f" [] 1).2.1 (by decide),
   by decide,
   (C9_timeout_guard negTimeoutConfig initialState 3 "f" [] 1).2.2 (by decide)⟩

/-- C10: registering the same callback twice under `broadcast` is
idempotent — the second `on` returns the same state, the registry holds one
entry, a broadcast dispatch invokes the callback exactly once, and a single
`off` removes it entirely. -/
theorem C10_broadcast_on_idempotent (s : State) (env : Env) (l : Nat)
    (d : Value) (h0 : lookupListeners s "broadcast" = [])
    (hok : env.broadcastFn l d = .ok ()) :
    «on» s "broadcast" l =
      .ok { s with listeners := alSet s.listeners "broadcast" [l] } ∧
    «on» { s with listeners := alSet s.listeners "broadcast" [l] }
        "broadcast" l =
      .ok { s with listeners := alSet s.listeners "broadcast" [l] } ∧
    lookupListeners { s with listeners := alSet s.listeners "broadcast" [l] }
        "broadcast" = [l] ∧
    handleBroadcast env
        (lookupListeners
          { s with listeners := alSet s.listeners "broadcast" [l] }
          "broadcast") d = [Effect.invoked l d] ∧
    lookupListeners
        (off { s with listeners := alSet s.listeners "broadcast" [l] }
          "broadcast" l) "broadcast" = [] := by
  have hb : jsStartsWith "broadcast" "function:" = false := by decide
  have hlk : lookupListeners
      { s with listeners := alSet s.listeners "broadcast" [l] }
      "broadcast" = [l] := by
    simp [lookupListeners, alGet_alSet_self]
  refine ⟨?_, ?_, hlk, ?_, ?_⟩
  · simp [«on», h0, hb, setAdd]
  · simp [«on», hlk, hb, setAdd, alSet_alSet_self]
  · rw [hlk]
    simp [handleBroadcast, hok]
  · unfold off
    simp [alGet_alSet_self, lookupListeners, alSet_alSet_self]

/-- C10 witness: concrete double registration of listener 4. -/
theorem C10_witness :
    lookupListeners initialState "broadcast" = [] ∧
    testEnv.broadcastFn 4 (Value.vNum 2) = .ok () ∧
    («on» initialState "broadcast" 4 =
      .ok { initialState with
              listeners := alSet initialState.listeners "broadcast" [4] } ∧
    «on» { initialState with
             listeners := alSet initialState.listeners "broadcast" [4] }
        "broadcast" 4 =
      .ok { initialState with
              listeners := alSet initialState.listeners "broadcast" [4] } ∧
    lookupListeners
        { initialState with
            listeners := alSet initialState.listeners "broadcast" [4] }
        "broadcast" = [4] ∧
    handleBroadcast testEnv
        (lookupListeners
          { initialState with
              listeners := alSet initialState.listeners "broadcast" [4] }
          "broadcast") (Value.vNum 2) = [Effect.invoked 4 (Value.vNum 2)] ∧
    lookupListeners
        (off { initialState with
                 listeners := alSet initialState.listeners "broadcast" [4] }
          "broadcast" 4) "broadcast" = []) :=
  ⟨by decide, rfl,
   C10_broadcast_on_idempotent initialState testEnv 4 (Value.vNum 2)
     (by decide) rfl⟩

/-- C2: with a pending entry for `id`, firing the timeout rejects with the
timeout error naming the function and the configured milliseconds, cancels
the timer and removes the entry; a `functionResult` arriving afterwards
changes nothing; the result-first path clears the timer and entry exactly
once; clearing an already-cleared entry is a no-op. -/
theorem C2_timeout_clears_once (cfg : Config) (s : State) (id : Int)
    (name : String) (pc : PendingCall) (n : Int)
    (hpend : alGet s.pendingFunctionCalls id = some pc)
    (hn : cfg.functionTimeoutMs = some n) :
    fireTimeout cfg s id name =
      ({ s with pendingFunctionCalls := alErase s.pendingFunctionCalls id },
       [Effect.clearTimer pc.timeout,
        Effect.reject id (Value.vErr
          (name ++ " timed out after " ++ toString n ++ "ms"))]) ∧
    (∀ res err, handleFunctionResult
        { s with pendingFunctionCalls := alErase s.pendingFunctionCalls id }
        id res err =
      ({ s with pendingFunctionCalls := alErase s.pendingFunctionCalls id },
       [])) ∧
    (∀ res, handleFunctionResult s id res none =
      ({ s with pendingFunctionCalls := alErase s.pendingFunctionCalls id },
       [Effect.clearTimer pc.timeout,
        Effect.resolve id (res.getD Value.vNull)])) ∧
    clearPendingFunctionCall
        { s with pendingFunctionCalls := alErase s.pendingFunctionCalls id }
        id =
      ({ s with pendingFunctionCalls := alErase s.pendingFunctionCalls id },
       []) := by
  have herased : alGet (alErase s.pendingFunctionCalls id) id = none :=
    alGet_alErase_self _ _
  refine ⟨?_, ?_, ?_, ?_⟩
  · simp [fireTimeout, clearPendingFunctionCall, hpend, hn]
  · intro res err
    simp [handleFunctionResult, herased]
  · intro res
    simp [handleFunctionResult, clearPendingFunctionCall, hpend]
  · simp [clearPendingFunctionCall, herased]

/-- C2 witness: pending call 5 with timer 3 and a 10000 ms timeout; firing
the timeout rejects with the timeout message and a late result is dropped. -/
theorem C2_witness :
    alGet statePending.pendingFunctionCalls 5 = some { timeout := 3 } ∧
    defaultConfig.functionTimeoutMs = some 10000 ∧
    fireTimeout defaultConfig statePending 5 "slow" =
      ({ statePending with
         pendingFunctionCalls := alErase statePending.pendingFunctionCalls 5 },
       [Effect.clearTimer 3,
        Effect.reject 5 (Value.vErr
          ("slow" ++ " timed out after " ++ toString (10000 : Int) ++ "ms"))]) ∧
    handleFunctionResult
        { statePending with
          pendingFunctionCalls := alErase statePending.pendingFunctionCalls 5 }
        5 (some (Value.vNum 1)) none =
      ({ statePending with
         pendingFunctionCalls := alErase statePending.pendingFunctionCalls 5 },
       []) :=
  ⟨by decide, by decide,
   (C2_timeout_clears_once defaultConfig statePending 5 "slow"
     { timeout := 3 } 10000 (by decide) rfl).1,
   (C2_timeout_clears_once defaultConfig statePending 5 "slow"
     { timeout := 3 } 10000 (by decide) rfl).2.1 (some (Value.vNum 1)) none⟩

/-- C3 (the code at the failing input): two calls issued at the same
`Date.now()` millisecond (1000) both get correlation id 1000; the second
`pendingFunctionCalls.set(id, ...)` overwrites the first call's entry, so
the ids of two overlapping in-flight calls are not distinct. -/
theorem C3_same_millisecond_collision :
    call defaultConfig initialState 1000 "f" [] 1 =
      .ok ({ initialState with
             pendingFunctionCalls := [(1000, { timeout := 1 })] },
           functionCallMsg defaultConfig "f" 1000 []) ∧
    call defaultConfig
        { initialState with
          pendingFunctionCalls := [(1000, { timeout := 1 })] }
        1000 "g" [] 2 =
      .ok ({ initialState with
             pendingFunctionCalls := [(1000, { timeout := 2 })] },
           functionCallMsg defaultConfig "g" 1000 []) ∧
    (functionCallMsg defaultConfig "f" 1000 []).id =
      (functionCallMsg defaultConfig "g" 1000 []).id :=
  ⟨rfl, rfl, rfl⟩

/-- C4 (counterexample): with broadcast listeners `[1, 2]` where listener 1
throws, the dispatch loop stops — listener 2 is never invoked, refuting the
claim that an exception thrown by one listener does not prevent the
remaining listeners from being invoked. -/
theorem C4_counterexample :
    handleBroadcast throwingEnv [1, 2] (Value.vNum 0) =
      [Effect.invoked 1 (Value.vNum 0)] ∧
    Effect.invoked 2 (Value.vNum 0) ∉
      handleBroadcast throwingEnv [1, 2] (Value.vNum 0) :=
  ⟨rfl, by decide⟩

/-- C4 (amended): broadcast listeners are invoked in registration order,
each with the same data, up to and including the first listener that
throws; listeners after a throwing one are not invoked, and when no
listener throws every registered listener is invoked. -/
theorem C4_broadcast_order (env : Env) (d : Value) :
    (∀ ls : List Nat, (∀ l ∈ ls, env.broadcastFn l d = .ok ()) →
      handleBroadcast env ls d = ls.map (fun l => Effect.invoked l d)) ∧
    (∀ (pre post : List Nat) (t : Nat) (e : Value),
      (∀ l ∈ pre, env.broadcastFn l d = .ok ()) →
      env.broadcastFn t d = .error e →
      handleBroadcast env (pre ++ t :: post) d =
        pre.map (fun l => Effect.invoked l d) ++ [Effect.invoked t d]) := by
  constructor
  · intro ls h
    induction ls with
    | nil => rfl
    | cons a rest ih =>
      have ha := h a (by simp)
      simp only [handleBroadcast, ha, List.map_cons]
      rw [ih (fun l hl => h l (by simp [hl]))]
  · intro pre post t e hpre ht
    induction pre with
    | nil => simp [handleBroadcast, ht]
    | cons a rest ih =>
      have ha := hpre a (by simp)
      have ihr := ih (fun l hl => hpre l (by simp [hl]))
      simp only [List.cons_append, handleBroadcast, ha, List.map_cons,
        List.append_eq]
      rw [ihr]

/-- C4 witness: listeners `[2, 3]` all succeed and are invoked in order;
with `[2] ++ 1 :: [3]` where listener 1 throws, only `[2, 1]` run. -/
theorem C4_broadcast_order_witness :
    handleBroadcast testEnv [2, 3] (Value.vNum 0) =
      List.map (fun l => Effect.invoked l (Value.vNum 0)) [2, 3] ∧
    handleBroadcast throwingEnv ([2] ++ 1 :: [3]) (Value.vNum 0) =
      List.map (fun l => Effect.invoked l (Value.vNum 0)) [2] ++
        [Effect.invoked 1 (Value.vNum 0)] :=
  ⟨(C4_broadcast_order testEnv (Value.vNum 0)).1 [2, 3] (fun l _ => rfl),
   (C4_broadcast_order throwingEnv (Value.vNum 0)).2 [2] [3] 1
     (Value.vErr "boom")
     (by intro l hl; simp at hl; subst hl; rfl) rfl⟩

/-- C7: an inbound `function:<name>` call with no registered listener is
answered with a `functionResult` carrying the `No listeners for <key>`
error (nothing thrown locally); with a registered listener, the listener is
invoked with the call's argument list and the endpoint replies
`{id, result}` on success or `{id, error}` when the listener throws, the
error travelling back instead of being raised locally. -/
theorem C7_function_call_replies (env : Env) (cfg : Config) (s : State)
    (name : String) (id : Int) (args : List Value) :
    (lookupListeners s ("function:" ++ name) = [] →
      handleFunctionCall env cfg s ("function:" ++ name) id args =
        [Effect.post (resultMsg cfg id none
          (some (Value.vErr
            ("No listeners for " ++ ("function:" ++ name)))))]) ∧
    (∀ l v, lookupListeners s ("function:" ++ name) = [l] →
      env.functionFn l args = .ok v →
      handleFunctionCall env cfg s ("function:" ++ name) id args =
        [Effect.fnInvoked l args,
         Effect.post (resultMsg cfg id (some v) none)]) ∧
    (∀ l e, lookupListeners s ("function:" ++ name) = [l] →
      env.functionFn l args = .error e →
      handleFunctionCall env cfg s ("function:" ++ name) id args =
        [Effect.fnInvoked l args,
         Effect.post (resultMsg cfg id none (some e))]) := by
  refine ⟨?_, ?_, ?_⟩
  · intro h
    simp [handleFunctionCall, h]
  · intro l v h hv
    simp [handleFunctionCall, h, runFnListeners, hv]
  · intro l e h he
    simp [handleFunctionCall, h, runFnListeners, he]

/-- C7 witness: no listener for `function:g` in the fresh state; listener 7
under `function:f` succeeds in `testEnv` and throws in `throwingEnv`. -/
theorem C7_witness :
    lookupListeners initialState ("function:" ++ "g") = [] ∧
    handleFunctionCall testEnv defaultConfig initialState
        ("function:" ++ "g") 5 [] =
      [Effect.post (resultMsg defaultConfig 5 none
        (some (Value.vErr
          ("No listeners for " ++ ("function:" ++ "g")))))] ∧
    handleFunctionCall testEnv defaultConfig stateWithF
        ("function:" ++ "f") 5 [Value.vNum 9] =
      [Effect.fnInvoked 7 [Value.vNum 9],
       Effect.post (resultMsg defaultConfig 5 (some (Value.vNum 1)) none)] ∧
    handleFunctionCall throwingEnv defaultConfig stateWithF
        ("function:" ++ "f") 5 [Value.vNum 9] =
      [Effect.fnInvoked 7 [Value.vNum 9],
       Effect.post (resultMsg defaultConfig 5 none
         (some (Value.vErr "fail")))] :=
  ⟨by decide,
   (C7_function_call_replies testEnv defaultConfig initialState "g" 5 []).1
     (by decide),
   (C7_function_call_replies testEnv defaultConfig stateWithF "f" 5
     [Value.vNum 9]).2.1 7 (Value.vNum 1) (by decide) rfl,
   (C7_function_call_replies throwingEnv defaultConfig stateWithF "f" 5
     [Value.vNum 9]).2.2 7 (Value.vErr "fail") (by decide) rfl⟩

/-- C8: an inbound raw message that fails to decode, or whose sender origin
mismatches while a non-wildcard origin is configured, or whose channel
field mismatches the endpoint's channel key, invokes no listener, sends no
reply, and leaves the listener registry and pending-call table unchanged. -/
theorem C8_drops_unmatched (env : Env) (cfg : Config) (s : State) :
    (∀ o, handlePostedMessage env cfg s { origin := o, payload := none } =
      (s, [])) ∧
    (∀ o m, originOf cfg ≠ "*" → o ≠ originOf cfg →
      handlePostedMessage env cfg s { origin := o, payload := some m } =
        (s, [])) ∧
    (∀ o m, m.channel ≠ channelKey cfg →
      handlePostedMessage env cfg s { origin := o, payload := some m } =
        (s, [])) := by
  refine ⟨?_, ?_, ?_⟩
  · intro o
    rfl
  · intro o m h1 h2
    have ho : (originOf cfg != "*" && o != originOf cfg) = true := by
      simp [h1, h2]
    simp [handlePostedMessage, ho]
  · intro o m hm
    by_cases ho : (originOf cfg != "*" && o != originOf cfg) = true
    · simp [handlePostedMessage, ho]
    · have hch : (channelKey cfg != m.channel) = true := by
        simpa using (Ne.symm hm)
      simp [handlePostedMessage, ho, hch]

/-- C8 witness: a malformed payload, an origin-mismatched broadcast against
a configured origin, and a channel-mismatched broadcast are all dropped. -/
theorem C8_witness :
    handlePostedMessage testEnv defaultConfig initialState
      { origin := "o", payload := none } = (initialState, []) ∧
    originOf originConfig ≠ "*" ∧
    handlePostedMessage testEnv originConfig initialState
      { origin := "https://evil.example",
        payload := some (broadcastMsg originConfig (Value.vNum 1)) } =
      (initialState, []) ∧
    handlePostedMessage testEnv defaultConfig initialState
      { origin := "o",
        payload := some (broadcastMsg channelConfig (Value.vNum 1)) } =
      (initialState, []) :=
  ⟨(C8_drops_unmatched testEnv defaultConfig initialState).1 "o",
   by decide,
   (C8_drops_unmatched testEnv originConfig initialState).2.1
     "https://evil.example" (broadcastMsg originConfig (Value.vNum 1))
     (by decide) (by decide),
   (C8_drops_unmatched testEnv defaultConfig initialState).2.2 "o"
     (broadcastMsg channelConfig (Value.vNum 1)) (by decide)⟩

/-- C1: end-to-end remote call.  `call(name, args)` stores a pending entry
keyed by the correlation id and posts a `function:<name>` envelope; the
peer, whose sole listener `l` for that key returns `v`, is invoked with
`args` and replies with a `functionResult` carrying `v`; handling that
reply settles the caller's promise with exactly `v`, and afterwards the
pending-call entry for the correlation id is no longer present. -/
theorem C1_call_roundtrip (cfgA cfgB : Config) (sA sB : State)
    (envA envB : Env) (name : String) (args : List Value) (now : Int)
    (th l : Nat) (v : Value) (origA origB : String)
    (hftm : falsyTimeout cfgA.functionTimeoutMs = false)
    (hlist : lookupListeners sB ("function:" ++ name) = [l])
    (hbeh : envB.functionFn l args = .ok v)
    (hchan : channelKey cfgB = channelKey cfgA)
    (horigB : originOf cfgB = "*" ∨ origA = originOf cfgB)
    (horigA : originOf cfgA = "*" ∨ origB = originOf cfgA) :
    call cfgA sA now name args th =
      .ok ({ sA with
             pendingFunctionCalls :=
               alSet sA.pendingFunctionCalls now { timeout := th } },
           functionCallMsg cfgA name now args) ∧
    handlePostedMessage envB cfgB sB
        { origin := origA,
          payload := some (functionCallMsg cfgA name now args) } =
      (sB, [Effect.fnInvoked l args,
            Effect.post (resultMsg cfgB now (some v) none)]) ∧
    handlePostedMessage envA cfgA
        { sA with
          pendingFunctionCalls :=
            alSet sA.pendingFunctionCalls now { timeout := th } }
        { origin := origB, payload := some (resultMsg cfgB now (some v) none) } =
      ({ sA with
         pendingFunctionCalls :=
           alErase (alSet sA.pendingFunctionCalls now { timeout := th }) now },
       [Effect.clearTimer th, Effect.resolve now v]) ∧
    alGet (alErase (alSet sA.pendingFunctionCalls now { timeout := th }) now)
        now = none := by
  have hne1 : (("function:" ++ name) == "broadcast") = false := by
    simpa using fnKey_ne_broadcast name
  have hne2 : (("function:" ++ name) == "functionResult") = false := by
    simpa using fnKey_ne_functionResult name
  have hsw := jsStartsWith_append "function:" name
  refine ⟨?_, ?_, ?_, ?_⟩
  · simp [call, hftm]
  · have hoB : (originOf cfgB != "*" && origA != originOf cfgB) = false := by
      rcases horigB with h | h <;> simp [h]
    simp [handlePostedMessage, hoB, functionCallMsg, hchan, hne1, hne2, hsw,
      handleFunctionCall, hlist, runFnListeners, hbeh]
  · have hoA : (originOf cfgA != "*" && origB != originOf cfgA) = false := by
      rcases horigA with h | h <;> simp [h]
    have hpend : alGet
        (alSet sA.pendingFunctionCalls now ({ timeout := th } : PendingCall))
        now = some { timeout := th } := alGet_alSet_self _ _ _
    simp [handlePostedMessage, hoA, resultMsg, hchan, handleFunctionResult,
      clearPendingFunctionCall, hpend, Value.truthy]
  · exact alGet_alErase_self _ _

/-- C1 witness: endpoint A (fresh state, default config) calls `f` with one
argument at time 5; endpoint B (`stateWithF`, listener 7 returning the
argument count) answers; A resolves with `1` and its pending entry is gone. -/
theorem C1_call_roundtrip_witness :
    call defaultConfig initialState 5 "f" [Value.vNum 9] 1 =
      .ok ({ initialState with
             pendingFunctionCalls :=
               alSet initialState.pendingFunctionCalls 5 { timeout := 1 } },
           functionCallMsg defaultConfig "f" 5 [Value.vNum 9]) ∧
    handlePostedMessage testEnv defaultConfig stateWithF
        { origin := "o",
          payload := some (functionCallMsg defaultConfig "f" 5 [Value.vNum 9]) } =
      (stateWithF,
       [Effect.fnInvoked 7 [Value.vNum 9],
        Effect.post (resultMsg defaultConfig 5 (some (Value.vNum 1)) none)]) ∧
    handlePostedMessage testEnv defaultConfig
        { initialState with
          pendingFunctionCalls :=
            alSet initialState.pendingFunctionCalls 5 { timeout := 1 } }
        { origin := "o",
          payload := some (resultMsg defaultConfig 5 (some (Value.vNum 1)) none) } =
      ({ initialState with
         pendingFunctionCalls :=
           alErase (alSet initialState.pendingFunctionCalls 5 { timeout := 1 })
             5 },
       [Effect.clearTimer 1, Effect.resolve 5 (Value.vNum 1)]) ∧
    alGet
        (alErase (alSet initialState.pendingFunctionCalls 5 { timeout := 1 })
          5) 5 = none :=
  C1_call_roundtrip defaultConfig defaultConfig initialState stateWithF
    testEnv testEnv "f" [Value.vNum 9] 5 1 7 (Value.vNum 1) "o" "o"
    (by decide) (by decide) rfl rfl (Or.inl rfl) (Or.inl rfl)
